import Mathlib

/-!
Verification of the geometry synchronization, simplification, consolidation
and station-rollup subsystem of the `la_metro_rail` map loader
(`la_metro_rail/models.py` and `la_metro_rail/load.py`).

Geometries themselves, CRS transforms, vertex-reduction and aggregate union
are external primitives (GEOS/GDAL/PostGIS) for the code under analysis; they
are modelled here by an abstract geometry datatype and a record of primitive
operations (`GeoLib`).  All orchestration logic — the per-SRID sync loops,
the type-preserving simplification branch, the duplicate consolidation run
and the station rollup — is translated directly from the Python source.
-/

/-- Abstract geometry values.  The source code only ever distinguishes
geometries by their top-level type (`geom_type`), so vertices are modelled
as opaque integer pairs. -/
inductive Geom where
  | lineString : List (Int × Int) → Geom
  | multiLineString : List (List (Int × Int)) → Geom
  | point : Int × Int → Geom
  deriving DecidableEq, Repr

/-- The `geom_type` property of a geometry (GEOS/OGR naming). -/
def Geom.geomType : Geom → String
  | Geom.lineString _ => "LineString"
  | Geom.multiLineString _ => "MultiLineString"
  | Geom.point _ => "Point"

/-- Models the re-wrap idiom of `Line.set_simple_linestrings` (models.py
lines 133-141): build an empty `MultiLineString` shell with
`OGRGeometry(OGRGeomType('MultiLineString'))` and `add` the single
`LineString` into it.  Only ever applied to a `LineString`. -/
def wrapMulti : Geom → Geom
  | Geom.lineString pts => Geom.multiLineString [pts]
  | g => g

/-- The external geometry primitives the code delegates to:
`geom.transform(srid, clone=True)` (CRS reprojection),
`geom.simplify(tolerance, True)` (topology-preserving vertex reduction),
and `queryset.unionagg()` (aggregate geometric union, which may fail). -/
structure GeoLib where
  transform : Geom → Nat → Geom
  simplify : Geom → Nat → Geom
  unionagg : List (Option Geom) → Except String Geom

/-- The `Line` model (models.py lines 10-46): a name, an optional slug, four
full-resolution multi-line fields (one per SRID) and four simplified
fields.  All geometry fields are nullable (`null=True`). -/
structure Line where
  name : String
  slug : Option String
  linestring_2229 : Option Geom
  linestring_4269 : Option Geom
  linestring_4326 : Option Geom
  linestring_900913 : Option Geom
  simple_linestring_2229 : Option Geom
  simple_linestring_4269 : Option Geom
  simple_linestring_4326 : Option Geom
  simple_linestring_900913 : Option Geom
  deriving DecidableEq, Repr

/-- `Line.get_srid_list` (models.py lines 59-70): the SRIDs of the fields
whose name starts with `linestring_`, in model-field declaration order.
The `simple_linestring_*` fields do not match the prefix. -/
def Line.get_srid_list : List Nat := [2229, 4269, 4326, 900913]

/-- `getattr(line, 'linestring_%s' % srid)`. -/
def Line.getLinestring (l : Line) : Nat → Option Geom
  | 2229 => l.linestring_2229
  | 4269 => l.linestring_4269
  | 4326 => l.linestring_4326
  | 900913 => l.linestring_900913
  | _ => none

/-- `setattr(line, 'linestring_%s' % srid, v)`. -/
def Line.setLinestring (l : Line) : Nat → Option Geom → Line
  | 2229, v => { l with linestring_2229 := v }
  | 4269, v => { l with linestring_4269 := v }
  | 4326, v => { l with linestring_4326 := v }
  | 900913, v => { l with linestring_900913 := v }
  | _, _ => l

/-- `getattr(line, 'simple_linestring_%s' % srid)`. -/
def Line.getSimpleLinestring (l : Line) : Nat → Option Geom
  | 2229 => l.simple_linestring_2229
  | 4269 => l.simple_linestring_4269
  | 4326 => l.simple_linestring_4326
  | 900913 => l.simple_linestring_900913
  | _ => none

/-- `setattr(line, 'simple_linestring_%s' % srid, v)`. -/
def Line.setSimpleLinestring (l : Line) : Nat → Option Geom → Line
  | 2229, v => { l with simple_linestring_2229 := v }
  | 4269, v => { l with simple_linestring_4269 := v }
  | 4326, v => { l with simple_linestring_4326 := v }
  | 900913, v => { l with simple_linestring_900913 := v }
  | _, _ => l

/-- `Line.set_linestrings` (models.py lines 72-94).  Checks that the
canonical SRID is legitimate (`ValueError` otherwise), reads the canonical
field, and overwrites every other `linestring_*` field with the canonical
data transformed into that SRID.  Reading `canonical_data.transform` when
the canonical field is `None` raises `AttributeError` inside the loop;
both exceptions are modelled by `Except.error`. -/
def Line.set_linestrings (lib : GeoLib) (l : Line) (canonical_srid : Nat) :
    Except String Line :=
  let srid_list := Line.get_srid_list
  if canonical_srid ∈ srid_list then
    let canonical_data := l.getLinestring canonical_srid
    (srid_list.erase canonical_srid).foldlM
      (fun acc srid =>
        match canonical_data with
        | none => Except.error "AttributeError: NoneType has no attribute transform"
        | some g => Except.ok (acc.setLinestring srid (some (lib.transform g srid))))
      l
  else Except.error "ValueError: canonical_srid must exist on the model."

/-- Loop body of `Line.set_simple_linestrings` (models.py lines 109-151)
as a function of one source field: empty source fields yield an empty
simplified field; otherwise the source is transformed into SRID 900913
unless already there (`deepcopy` is value semantics), vertex-reduced, and
if the result degenerated to a `LineString` it is transformed back to the
field SRID and wrapped into a `MultiLineString` shell, else transformed
back as is. -/
def simpleResult (lib : GeoLib) (tolerance : Nat) (srid : Nat) :
    Option Geom → Option Geom
  | none => none
  | some source =>
    let copy := if srid ≠ 900913 then lib.transform source 900913 else source
    let simple := lib.simplify copy tolerance
    let target :=
      if simple.geomType = "LineString" then
        wrapMulti (lib.transform simple srid)
      else
        lib.transform simple srid
    some target

/-- `Line.set_simple_linestrings` (models.py lines 96-152): for every SRID
in `get_srid_list`, store the simplified version of that SRID's
full-resolution field into the matching `simple_linestring_*` field. -/
def Line.set_simple_linestrings (lib : GeoLib) (tolerance : Nat) (l : Line) : Line :=
  Line.get_srid_list.foldl
    (fun acc srid =>
      acc.setSimpleLinestring srid (simpleResult lib tolerance srid (acc.getLinestring srid)))
    l

/-- The `Station` model (models.py lines 155-165): a name, an optional
slug, and a many-to-many line set, modelled as a list of line names with
idempotent insertion. -/
structure Station where
  name : String
  slug : Option String
  lines : List String
  deriving DecidableEq, Repr

/-- The `Stop` model (models.py lines 183-211): descriptive fields, a
nullable station reference (modelled by station name, the Station identity
key), a many-to-many line set (modelled by line names, the Line identity
key after consolidation), and three nullable point fields. -/
structure Stop where
  name : String
  slug : Option String
  stop_id : Int
  station : Option String
  lines : List String
  point_4269 : Option Geom
  point_4326 : Option Geom
  point_900913 : Option Geom
  deriving DecidableEq, Repr

/-- `Stop.get_srid_list` (models.py lines 228-239): the SRIDs of the
fields whose name starts with `point_`, in declaration order. -/
def Stop.get_srid_list : List Nat := [4269, 4326, 900913]

/-- `getattr(stop, 'point_%s' % srid)`. -/
def Stop.getPoint (s : Stop) : Nat → Option Geom
  | 4269 => s.point_4269
  | 4326 => s.point_4326
  | 900913 => s.point_900913
  | _ => none

/-- `setattr(stop, 'point_%s' % srid, v)`. -/
def Stop.setPoint (s : Stop) : Nat → Option Geom → Stop
  | 4269, v => { s with point_4269 := v }
  | 4326, v => { s with point_4326 := v }
  | 900913, v => { s with point_900913 := v }
  | _, _ => s

/-- `Stop.set_point` (models.py lines 241-263), the point analogue of
`Line.set_linestrings`. -/
def Stop.set_point (lib : GeoLib) (s : Stop) (canonical_srid : Nat) :
    Except String Stop :=
  let srid_list := Stop.get_srid_list
  if canonical_srid ∈ srid_list then
    let canonical_data := s.getPoint canonical_srid
    (srid_list.erase canonical_srid).foldlM
      (fun acc srid =>
        match canonical_data with
        | none => Except.error "AttributeError: NoneType has no attribute transform"
        | some g => Except.ok (acc.setPoint srid (some (lib.transform g srid))))
      s
  else Except.error "ValueError: canonical_srid must exist on the model."

/-- Models `django.template.defaultfilters.slugify`, an external primitive;
only its determinism matters to the verified code, so any fixed URL-safe
renaming suffices: lowercase with spaces turned into hyphens. -/
def slugify (s : String) : String :=
  String.mk (s.data.map (fun c => if c = ' ' then '-' else c.toLower))

/-- The Line table: rows carry the auto-assigned primary key, and
`nextId` is the next key the store will hand out (`Line.objects.create`). -/
structure LineDB where
  rows : List (Nat × Line)
  nextId : Nat
  deriving DecidableEq, Repr

/-- `Line.objects.filter(name=n)`, in row order. -/
def nameRows (db : LineDB) (n : String) : List (Nat × Line) :=
  db.rows.filter (fun r => r.2.name = n)

/-- A `Line.objects.create(name=n, linestring_2229=g)` record: every field
not passed to `create` takes its default (`null`). -/
def blankLine (n : String) (g : Option Geom) : Line :=
  { name := n, slug := none,
    linestring_2229 := g, linestring_4269 := none,
    linestring_4326 := none, linestring_900913 := none,
    simple_linestring_2229 := none, simple_linestring_4269 := none,
    simple_linestring_4326 := none, simple_linestring_900913 := none }

/-- The dupe query of `fix_line_dupes` (load.py lines 137-138):
`Line.objects.values('name').annotate(count=Count('name')).filter(count__gt=1)`,
i.e. the distinct names held by more than one row. -/
def dupeNames (db : LineDB) : List String :=
  ((db.rows.map (fun r => r.2.name)).dedup).filter
    (fun n => decide (1 < (nameRows db n).length))

/-- One iteration of the `fix_line_dupes` loop (load.py lines 141-160):
select the rows with the duplicated name, aggregate-union their canonical
geometries (`unionagg`, which may fail), create a new `Line` carrying the
unioned shape and the shared name (`this_list[0].name`), then delete every
row with that name other than the new one. -/
def consolidateName (lib : GeoLib) (db : LineDB) (n : String) :
    Except String LineDB :=
  let this_list := nameRows db n
  match lib.unionagg (this_list.map (fun r => r.2.linestring_2229)) with
  | Except.error e => Except.error e
  | Except.ok u =>
    match this_list.head? with
    | none => Except.error "IndexError: list index out of range"
    | some first =>
      let newId := db.nextId
      let newLine := blankLine first.2.name (some u)
      let rows1 := db.rows ++ [(newId, newLine)]
      Except.ok
        { rows := rows1.filter (fun r => decide (¬(r.2.name = n ∧ r.1 ≠ newId))),
          nextId := db.nextId + 1 }

/-- The `fix_line_dupes` loop over the duplicated names.  An exception in
one iteration aborts the whole run; database effects of earlier iterations
persist, so the result is the store state reached so far together with the
propagated error, if any. -/
def consolidateGo (lib : GeoLib) : List String → LineDB → LineDB × Option String
  | [], db => (db, none)
  | n :: ns, db =>
    match consolidateName lib db n with
    | Except.error e => (db, some e)
    | Except.ok db1 => consolidateGo lib ns db1

/-- `fix_line_dupes` (load.py lines 120-160). -/
def fix_line_dupes_run (lib : GeoLib) (db : LineDB) : LineDB × Option String :=
  consolidateGo lib (dupeNames db) db

/-- One row of the crosswalk CSV (load.py lines 99-100): a clean display
name and up to two line-name references; a blank cell reads as the empty
string, which is falsy in the `if this_crosswalk.get(...)` guards. -/
structure CrosswalkEntry where
  clean_station_name : String
  line1 : String
  line2 : String
  deriving DecidableEq, Repr

/-- `stop_lookup[str(stop.stop_id)]` as a partial lookup: a missing key
raises `KeyError` (the MissingCrosswalkEntry failure). -/
def lookupCw (cw : List (String × CrosswalkEntry)) (k : String) :
    Option CrosswalkEntry :=
  (cw.find? (fun p => p.1 == k)).map Prod.snd

/-- Idempotent many-to-many `add`: adding an already-present member is a
no-op. -/
def addUnique (xs : List String) (x : String) : List String :=
  if x ∈ xs then xs else xs ++ [x]

/-- `if this_crosswalk.get("LineN"): stop.lines.add(Line.objects.get(name=...))`
(load.py lines 105-108).  `Line.objects.get` raises `DoesNotExist` when no
line of that name exists. -/
def addLineRef (lineNames : List String) (s : Stop) (ref : String) :
    Except String Stop :=
  if ref ≠ "" then
    if ref ∈ lineNames then
      Except.ok { s with lines := addUnique s.lines ref }
    else
      Except.error "UnresolvedLineReference: Line matching query does not exist"
  else Except.ok s

/-- `Station.objects.get_or_create(name=..., slug=...)` (load.py lines
109-112): return the matching station if one exists, else append a fresh
station with an empty line set. -/
def getOrCreateStation (stations : List Station) (nm sl : String) :
    Station × List Station :=
  match stations.find? (fun st => st.name == nm && st.slug == some sl) with
  | some st => (st, stations)
  | none =>
    let st : Station := { name := nm, slug := some sl, lines := [] }
    (st, stations ++ [st])

/-- `for line in stop.lines.all(): station.lines.add(line)` followed by
`station.save()` (load.py lines 115-117): add every one of the stop's
lines to the station row identified by `nm`. -/
def addStationLines (stations : List Station) (nm : String) (ls : List String) :
    List Station :=
  stations.map (fun st =>
    if st.name == nm then { st with lines := ls.foldl addUnique st.lines } else st)

/-- The body of the `stations()` loop for one stop (load.py lines
102-117): crosswalk lookup (KeyError when absent), name/slug assignment,
resolution of up to two line references, station get-or-create, station
assignment, and propagation of the stop's line set into the station. -/
def processStop (cw : List (String × CrosswalkEntry)) (lineNames : List String)
    (stations : List Station) (s : Stop) : Except String (Stop × List Station) :=
  match lookupCw cw (toString s.stop_id) with
  | none => Except.error "KeyError: MissingCrosswalkEntry"
  | some e =>
    let s1 := { s with
      name := e.clean_station_name,
      slug := some (slugify e.clean_station_name ++ "-" ++ toString s.stop_id) }
    match addLineRef lineNames s1 e.line1 with
    | Except.error err => Except.error err
    | Except.ok s2 =>
      match addLineRef lineNames s2 e.line2 with
      | Except.error err => Except.error err
      | Except.ok s3 =>
        let pr := getOrCreateStation stations e.clean_station_name
          (slugify e.clean_station_name)
        let s4 := { s3 with station := some pr.1.name }
        Except.ok (s4, addStationLines pr.2 pr.1.name s4.lines)

/-- The `for stop in Stop.objects.all():` loop of `stations()`.  As with
consolidation, a raised exception aborts the run but leaves the records
already saved in place: the result carries the processed stops, the
untouched remainder, the station table reached so far, and the error. -/
def rollupGo (cw : List (String × CrosswalkEntry)) (lineNames : List String) :
    List Stop → List Stop → List Station → List Stop × List Station × Option String
  | [], done, stations => (done, stations, none)
  | s :: rest, done, stations =>
    match processStop cw lineNames stations s with
    | Except.error e => (done ++ s :: rest, stations, some e)
    | Except.ok (s1, stations1) => rollupGo cw lineNames rest (done ++ [s1]) stations1

/-- `stations()` (load.py lines 92-117), run against a stop table and a
station table. -/
def stations_run (cw : List (String × CrosswalkEntry)) (lineNames : List String)
    (stops : List Stop) (stations : List Station) :
    List Stop × List Station × Option String :=
  rollupGo cw lineNames stops [] stations

deriving instance DecidableEq for Except

/-- Well-formed Line table: every stored primary key is below the next key
the store will assign (auto-increment discipline). -/
def WFdb (db : LineDB) : Prop := ∀ r ∈ db.rows, r.1 < db.nextId

/-- Invariant of the `stations()` loop: every processed stop points at an
existing station, station slugs are determined by station names, and each
station's line set is exactly the union of the line sets of the processed
stops assigned to it. -/
def RollInv (done : List Stop) (stations : List Station) : Prop :=
  (∀ s ∈ done, ∃ st ∈ stations, s.station = some st.name) ∧
  (∀ st ∈ stations, st.slug = some (slugify st.name)) ∧
  (∀ st ∈ stations, ∀ l, l ∈ st.lines ↔
    ∃ s ∈ done, s.station = some st.name ∧ l ∈ s.lines)

/-- A two-part multi-line used as concrete test geometry. -/
def demoMulti : Geom := Geom.multiLineString [[(0,0),(1,1)],[(2,2),(3,3)]]

/-- A one-part multi-line used as concrete test geometry. -/
def demoMulti2 : Geom := Geom.multiLineString [[(5,5),(6,6)]]

/-- A concrete test point. -/
def demoPoint : Geom := Geom.point (1,2)

/-- Concrete primitives for evaluation: identity reprojection, a
vertex reduction that collapses a multi-line to its first part, and an
aggregate union that always succeeds. -/
def demoLib : GeoLib :=
  { transform := fun g _ => g,
    simplify := fun g _ =>
      match g with
      | Geom.multiLineString (p :: _) => Geom.lineString p
      | g => g,
    unionagg := fun _ => Except.ok demoMulti }

/-- Concrete primitives whose aggregate union always fails. -/
def failLib : GeoLib :=
  { transform := fun g _ => g,
    simplify := fun g _ => g,
    unionagg := fun _ => Except.error "union failed" }

/-- A line with only its canonical field populated. -/
def demoLine : Line := blankLine "Red" (some demoMulti)

/-- `demoLine` after syncing from SRID 2229 under identity reprojection. -/
def demoLineSynced : Line :=
  { demoLine with
    linestring_4269 := some demoMulti,
    linestring_4326 := some demoMulti,
    linestring_900913 := some demoMulti }

/-- A line whose 2229 field is empty but whose 4269 field is populated. -/
def demoLineHole : Line :=
  { blankLine "Red" none with linestring_4269 := some demoMulti }

/-- A stop with a crosswalk entry in `demoCw`. -/
def demoStop : Stop :=
  { name := "RAW NAME", slug := none, stop_id := 100, station := none, lines := [],
    point_4269 := some demoPoint, point_4326 := none, point_900913 := none }

/-- A stop whose `stop_id` has no entry in `demoCw`. -/
def demoStopNoEntry : Stop := { demoStop with stop_id := 200 }

/-- A stop with an empty canonical point. -/
def demoStopEmpty : Stop := { demoStop with point_4269 := none }

/-- A line table with one duplicated name and one singleton. -/
def demoDB : LineDB :=
  { rows := [(1, blankLine "Red" (some demoMulti)),
             (2, blankLine "Red" (some demoMulti2)),
             (3, blankLine "Blue" (some demoMulti2))],
    nextId := 4 }

/-- A line table with two duplicated names. -/
def demoDB2 : LineDB :=
  { rows := [(1, blankLine "A" (some demoMulti)),
             (2, blankLine "A" (some demoMulti2)),
             (3, blankLine "B" (some demoMulti)),
             (4, blankLine "B" (some demoMulti2))],
    nextId := 5 }

/-- A one-entry crosswalk table keyed by stop id 100. -/
def demoCw : List (String × CrosswalkEntry) :=
  [("100", { clean_station_name := "Union Station", line1 := "Gold", line2 := "" })]

/-- For SRIDs in the known list, the simplified field stored by
`set_simple_linestrings` is the loop body applied to that SRID's source
field; each iteration writes only its own simplified field, so iterations
are independent. -/
lemma getSimple_set_simple (lib : GeoLib) (t : Nat) (l : Line) (srid : Nat)
    (h : srid ∈ Line.get_srid_list) :
    (Line.set_simple_linestrings lib t l).getSimpleLinestring srid
      = simpleResult lib t srid (l.getLinestring srid) := by
  fin_cases h <;> rfl

/-- A geometry whose `geom_type` reads `LineString` is a `lineString`. -/
lemma geomType_lineString {g : Geom} (h : g.geomType = "LineString") :
    ∃ pts, g = Geom.lineString pts := by
  cases g <;> simp [Geom.geomType] at h ⊢

/-- Functional description of a successful `Line.set_linestrings` call:
the canonical field is untouched and every other known field holds the
transformed canonical data. -/
lemma set_linestrings_ok (lib : GeoLib) (l : Line) (c : Nat) (g : Geom)
    (hc : c ∈ Line.get_srid_list) (hg : l.getLinestring c = some g) :
    ∃ l2, Line.set_linestrings lib l c = Except.ok l2 ∧
      l2.getLinestring c = some g ∧
      ∀ srid ∈ Line.get_srid_list, srid ≠ c →
        l2.getLinestring srid = some (lib.transform g srid) := by
  obtain ⟨nm, sl, f1, f2, f3, f4, s1, s2, s3, s4⟩ := l
  fin_cases hc
  · have hg2 : f1 = some g := hg
    cases hg2
    refine ⟨_, rfl, rfl, ?_⟩
    intro srid hs hne
    fin_cases hs
    · exact absurd rfl hne
    · rfl
    · rfl
    · rfl
  · have hg2 : f2 = some g := hg
    cases hg2
    refine ⟨_, rfl, rfl, ?_⟩
    intro srid hs hne
    fin_cases hs
    · rfl
    · exact absurd rfl hne
    · rfl
    · rfl
  · have hg2 : f3 = some g := hg
    cases hg2
    refine ⟨_, rfl, rfl, ?_⟩
    intro srid hs hne
    fin_cases hs
    · rfl
    · rfl
    · exact absurd rfl hne
    · rfl
  · have hg2 : f4 = some g := hg
    cases hg2
    refine ⟨_, rfl, rfl, ?_⟩
    intro srid hs hne
    fin_cases hs
    · rfl
    · rfl
    · rfl
    · exact absurd rfl hne

/-- Functional description of a successful `Stop.set_point` call. -/
lemma set_point_ok (lib : GeoLib) (s : Stop) (c : Nat) (g : Geom)
    (hc : c ∈ Stop.get_srid_list) (hg : s.getPoint c = some g) :
    ∃ s2, Stop.set_point lib s c = Except.ok s2 ∧
      s2.getPoint c = some g ∧
      ∀ srid ∈ Stop.get_srid_list, srid ≠ c →
        s2.getPoint srid = some (lib.transform g srid) := by
  obtain ⟨nm, sl, sid, stn, ln, p1, p2, p3⟩ := s
  fin_cases hc
  · have hg2 : p1 = some g := hg
    cases hg2
    refine ⟨_, rfl, rfl, ?_⟩
    intro srid hs hne
    fin_cases hs
    · exact absurd rfl hne
    · rfl
    · rfl
  · have hg2 : p2 = some g := hg
    cases hg2
    refine ⟨_, rfl, rfl, ?_⟩
    intro srid hs hne
    fin_cases hs
    · rfl
    · exact absurd rfl hne
    · rfl
  · have hg2 : p3 = some g := hg
    cases hg2
    refine ⟨_, rfl, rfl, ?_⟩
    intro srid hs hne
    fin_cases hs
    · rfl
    · rfl
    · exact absurd rfl hne

/-- One successful `fix_line_dupes` iteration: the duplicated name is
left with exactly the freshly created unioned row, rows of other names
are untouched, and key discipline is preserved. -/
lemma consolidateName_ok (lib : GeoLib) (db db1 : LineDB) (n : String)
    (hwf : WFdb db)
    (hok : consolidateName lib db n = Except.ok db1) :
    (∃ u, lib.unionagg ((nameRows db n).map (fun r => r.2.linestring_2229))
        = Except.ok u ∧
      nameRows db1 n = [(db.nextId, blankLine n (some u))]) ∧
    (∀ m, m ≠ n → nameRows db1 m = nameRows db m) ∧
    WFdb db1 ∧
    db1.nextId = db.nextId + 1 := by
  simp only [consolidateName] at hok
  cases hu : lib.unionagg ((nameRows db n).map (fun r => r.2.linestring_2229)) with
  | error e => rw [hu] at hok; exact Except.noConfusion hok
  | ok u =>
    rw [hu] at hok
    cases hh : (nameRows db n).head? with
    | none => rw [hh] at hok; exact Except.noConfusion hok
    | some first =>
      rw [hh] at hok
      injection hok with hok
      have hfn : first.2.name = n := by
        have hmem : first ∈ nameRows db n := List.mem_of_mem_head? (by simp [hh])
        have := (List.mem_filter.mp hmem).2
        simpa using this
      subst hok
      refine ⟨⟨u, rfl, ?_⟩, ?_, ?_, rfl⟩
      · show List.filter _ (List.filter _ _) = _
        rw [List.filter_filter, List.filter_append]
        have h1 : List.filter
            (fun r => decide (r.2.name = n) && decide (¬(r.2.name = n ∧ r.1 ≠ db.nextId)))
            db.rows = [] := by
          rw [List.filter_eq_nil_iff]
          intro r hr
          have hlt := hwf r hr
          by_cases hnm : r.2.name = n <;> simp [hnm] <;> omega
        rw [h1]
        simp [hfn, blankLine]
      · intro m hm
        show List.filter _ (List.filter _ _) = _
        rw [List.filter_filter, List.filter_append]
        have h2 : List.filter
            (fun r => decide (r.2.name = m) && decide (¬(r.2.name = n ∧ r.1 ≠ db.nextId)))
            [(db.nextId, blankLine first.2.name (some u))] = [] := by
          simp [blankLine, hfn, Ne.symm hm]
        rw [h2, List.append_nil]
        show _ = List.filter _ _
        apply List.filter_congr
        intro r hr
        by_cases hnm : r.2.name = m
        · have hne : ¬(r.2.name = n) := by rw [hnm]; exact hm
          simp [hnm, hne]
          exact Or.inl hm
        · simp [hnm]
      · intro r hr
        show r.1 < db.nextId + 1
        have hr2 := List.mem_of_mem_filter hr
        rcases List.mem_append.mp hr2 with h | h
        · have := hwf r h
          omega
        · rw [List.mem_singleton] at h
          subst h
          simp

/-- Invariant of the `fix_line_dupes` loop over a list of distinct
duplicated names: a fully successful run consolidates every listed name
and leaves every other name alone. -/
lemma consolidateGo_spec (lib : GeoLib) (db0 : LineDB) :
    ∀ (ns : List String) (db db1 : LineDB),
    consolidateGo lib ns db = (db1, none) →
    WFdb db →
    db0.nextId ≤ db.nextId →
    (∀ n ∈ ns, nameRows db n = nameRows db0 n) →
    ns.Nodup →
    WFdb db1 ∧ db.nextId ≤ db1.nextId ∧
    (∀ n ∈ ns, ∃ i u, db0.nextId ≤ i ∧
      lib.unionagg ((nameRows db0 n).map (fun r => r.2.linestring_2229))
        = Except.ok u ∧
      nameRows db1 n = [(i, blankLine n (some u))]) ∧
    (∀ m, m ∉ ns → nameRows db1 m = nameRows db m) := by
  intro ns
  induction ns with
  | nil =>
    intro db db1 h hwf hle _ _
    simp only [consolidateGo, Prod.mk.injEq] at h
    obtain ⟨rfl, -⟩ := h
    exact ⟨hwf, le_refl _, by simp, fun m _ => rfl⟩
  | cons n ns ih =>
    intro db db1 h hwf hle hdb0 hnd
    simp only [consolidateGo] at h
    cases hcn : consolidateName lib db n with
    | error e => rw [hcn] at h; simp at h
    | ok dbm =>
      rw [hcn] at h
      obtain ⟨⟨u, hu, hrow⟩, hframe, hwfm, hnext⟩ :=
        consolidateName_ok lib db dbm n hwf hcn
      have hnmem : n ∉ ns := (List.nodup_cons.mp hnd).1
      have hndns : ns.Nodup := (List.nodup_cons.mp hnd).2
      have hdb0n : nameRows db n = nameRows db0 n := hdb0 n (List.mem_cons_self n ns)
      obtain ⟨hwf1, hle1, hmain, hfr1⟩ := ih dbm db1 h hwfm (by omega)
        (fun m hm => by
          have hne : m ≠ n := fun hmn => hnmem (hmn ▸ hm)
          rw [hframe m hne]
          exact hdb0 m (List.mem_cons_of_mem n hm))
        hndns
      refine ⟨hwf1, by omega, ?_, ?_⟩
      · intro m hm
        rcases List.mem_cons.mp hm with rfl | hm2
        · refine ⟨db.nextId, u, hle, ?_, ?_⟩
          · rw [← hdb0n]
            exact hu
          · rw [hfr1 m hnmem]
            exact hrow
        · exact hmain m hm2
      · intro m hm
        have hm1 : m ∉ ns := fun h2 => hm (List.mem_cons_of_mem n h2)
        have hm2 : m ≠ n := fun h2 => hm (h2 ▸ List.mem_cons_self n ns)
        rw [hfr1 m hm1, hframe m hm2]

/-- A name is in the dupe query exactly when more than one row holds it. -/
lemma mem_dupeNames (db : LineDB) (n : String) :
    n ∈ dupeNames db ↔ 2 ≤ (nameRows db n).length := by
  unfold dupeNames
  rw [List.mem_filter, List.mem_dedup]
  constructor
  · rintro ⟨-, h⟩
    simp only [decide_eq_true_eq] at h
    omega
  · intro h
    have hne : nameRows db n ≠ [] := by
      intro h0
      rw [h0] at h
      simp at h
    obtain ⟨r, hr⟩ := List.exists_mem_of_ne_nil _ hne
    have hr2 := List.mem_filter.mp hr
    refine ⟨List.mem_map.mpr ⟨r, hr2.1, ?_⟩, by simpa using h⟩
    simpa using hr2.2

/-- The dupe query returns distinct names. -/
lemma nodup_dupeNames (db : LineDB) : (dupeNames db).Nodup :=
  (List.nodup_dedup _).filter _

/-- Membership in an idempotent many-to-many `add`. -/
lemma mem_addUnique {xs : List String} {x y : String} :
    x ∈ addUnique xs y ↔ x ∈ xs ∨ x = y := by
  unfold addUnique
  split
  · rename_i hy
    constructor
    · exact Or.inl
    · rintro (h | rfl)
      · exact h
      · exact hy
  · simp

/-- Membership after adding a whole list of members one by one. -/
lemma mem_foldl_addUnique (ls : List String) :
    ∀ (init : List String) (x : String),
      x ∈ ls.foldl addUnique init ↔ x ∈ init ∨ x ∈ ls := by
  induction ls with
  | nil => simp
  | cons y ys ih =>
    intro init x
    simp only [List.foldl_cons, ih, mem_addUnique, List.mem_cons]
    tauto

/-- The station handed back by get-or-create carries the requested name. -/
lemma getOrCreate_fst_name (stations : List Station) (nm sl : String) :
    (getOrCreateStation stations nm sl).1.name = nm := by
  unfold getOrCreateStation
  cases hf : stations.find? (fun st => st.name == nm && st.slug == some sl) with
  | none => rfl
  | some st =>
    have := List.find?_some hf
    simp only [Bool.and_eq_true, beq_iff_eq] at this
    exact this.1

/-- Shape of a successful `stations()` loop body: the stop is assigned to
the crosswalk station and that station absorbs the stop line set. -/
lemma processStop_ok_shape (cw : List (String × CrosswalkEntry)) (lns : List String)
    (stations stations1 : List Station) (s s1 : Stop)
    (h : processStop cw lns stations s = Except.ok (s1, stations1)) :
    ∃ nm, s1.station = some nm ∧
      stations1 = addStationLines (getOrCreateStation stations nm (slugify nm)).2 nm s1.lines := by
  unfold processStop at h
  cases hcw : lookupCw cw (toString s.stop_id) with
  | none => rw [hcw] at h; exact Except.noConfusion h
  | some e =>
    rw [hcw] at h
    simp only [] at h
    split at h
    · exact Except.noConfusion h
    · split at h
      · exact Except.noConfusion h
      · simp only [Except.ok.injEq, Prod.mk.injEq] at h
        obtain ⟨rfl, rfl⟩ := h
        refine ⟨e.clean_station_name, ?_, ?_⟩
        · simp [getOrCreate_fst_name]
        · rw [getOrCreate_fst_name]

/-- The `stations()` loop body preserves the rollup invariant. -/
lemma RollInv_step (cw : List (String × CrosswalkEntry)) (lns : List String)
    (stations stations1 : List Station) (done : List Stop) (s s1 : Stop)
    (hinv : RollInv done stations)
    (hok : processStop cw lns stations s = Except.ok (s1, stations1)) :
    RollInv (done ++ [s1]) stations1 := by
  obtain ⟨nm, hst, hstations⟩ := processStop_ok_shape cw lns stations stations1 s s1 hok
  obtain ⟨h1, h2, h3⟩ := hinv
  subst hstations
  unfold getOrCreateStation
  cases hf : stations.find? (fun st => st.name == nm && st.slug == some (slugify nm)) with
  | some st0 =>
    simp only []
    have hq := List.find?_some hf
    simp only [Bool.and_eq_true, beq_iff_eq] at hq
    have hst0mem : st0 ∈ stations := List.mem_of_find?_eq_some hf
    refine ⟨?_, ?_, ?_⟩
    · intro t ht
      rcases List.mem_append.mp ht with ht | ht
      · obtain ⟨st, hstm, hts⟩ := h1 t ht
        refine ⟨(if st.name == nm then { st with lines := s1.lines.foldl addUnique st.lines } else st),
          List.mem_map_of_mem _ hstm, ?_⟩
        rw [hts]
        congr 1
        split <;> rfl
      · rw [List.mem_singleton] at ht
        rw [ht]
        refine ⟨{ st0 with lines := s1.lines.foldl addUnique st0.lines }, ?_, ?_⟩
        · have : (if st0.name == nm then { st0 with lines := s1.lines.foldl addUnique st0.lines } else st0)
              ∈ addStationLines stations nm s1.lines := List.mem_map_of_mem _ hst0mem
          simpa [hq.1] using this
        · simp [hst, hq.1]
    · intro st' hmem
      obtain ⟨st, hstm, rfl⟩ := List.mem_map.mp hmem
      have := h2 st hstm
      split <;> simpa using this
    · intro st' hmem l
      obtain ⟨st, hstm, rfl⟩ := List.mem_map.mp hmem
      by_cases hb : st.name = nm
      · simp only [hb, beq_self_eq_true, if_true]
        rw [mem_foldl_addUnique]
        constructor
        · rintro (hl | hl)
          · obtain ⟨t, htd, hts, htl⟩ := (h3 st hstm l).mp hl
            exact ⟨t, List.mem_append_left _ htd, by rw [hts, hb], htl⟩
          · exact ⟨s1, List.mem_append_right _ (List.mem_singleton_self _),
              by rw [hst], hl⟩
        · rintro ⟨t, htd, hts, htl⟩
          rcases List.mem_append.mp htd with htd | htd
          · exact Or.inl ((h3 st hstm l).mpr ⟨t, htd, by rw [hts, hb], htl⟩)
          · rw [List.mem_singleton] at htd
            subst htd
            exact Or.inr htl
      · simp only [beq_iff_eq, hb, if_false]
        rw [h3 st hstm l]
        constructor
        · rintro ⟨t, htd, hts, htl⟩
          exact ⟨t, List.mem_append_left _ htd, hts, htl⟩
        · rintro ⟨t, htd, hts, htl⟩
          rcases List.mem_append.mp htd with htd | htd
          · exact ⟨t, htd, hts, htl⟩
          · rw [List.mem_singleton] at htd
            subst htd
            rw [hst] at hts
            injection hts with hts
            exact absurd hts.symm hb
  | none =>
    simp only []
    have hno : ∀ st ∈ stations, st.name ≠ nm := by
      intro st hstm heq
      have hfn := List.find?_eq_none.mp hf st hstm
      rw [heq, h2 st hstm, heq] at hfn
      simp at hfn
    have hsplit : addStationLines
        (stations ++ [{ name := nm, slug := some (slugify nm), lines := [] }]) nm s1.lines
        = stations ++ [{ name := nm, slug := some (slugify nm), lines := s1.lines.foldl addUnique [] }] := by
      unfold addStationLines
      rw [List.map_append]
      congr 1
      · conv_rhs => rw [← List.map_id stations]
        apply List.map_congr_left
        intro st hstm
        simp [hno st hstm]
      · simp
    rw [hsplit]
    refine ⟨?_, ?_, ?_⟩
    · intro t ht
      rcases List.mem_append.mp ht with ht | ht
      · obtain ⟨st, hstm, hts⟩ := h1 t ht
        exact ⟨st, List.mem_append_left _ hstm, hts⟩
      · rw [List.mem_singleton] at ht
        subst ht
        exact ⟨_, List.mem_append_right _ (List.mem_singleton_self _), by simp [hst]⟩
    · intro st' hmem
      rcases List.mem_append.mp hmem with hmem | hmem
      · exact h2 st' hmem
      · rw [List.mem_singleton] at hmem
        subst hmem
        rfl
    · intro st' hmem0 l
      rcases List.mem_append.mp hmem0 with hmem | hmem
      · rw [h3 st' hmem l]
        constructor
        · rintro ⟨t, htd, hts, htl⟩
          exact ⟨t, List.mem_append_left _ htd, hts, htl⟩
        · rintro ⟨t, htd, hts, htl⟩
          rcases List.mem_append.mp htd with htd | htd
          · exact ⟨t, htd, hts, htl⟩
          · rw [List.mem_singleton] at htd
            subst htd
            rw [hst] at hts
            injection hts with hts
            exact absurd hts (hno st' hmem).symm
      · rw [List.mem_singleton] at hmem
        subst hmem
        simp only [mem_foldl_addUnique, List.not_mem_nil, false_or]
        constructor
        · intro hl
          exact ⟨s1, List.mem_append_right _ (List.mem_singleton_self _), by simp [hst], hl⟩
        · rintro ⟨t, htd, hts, htl⟩
          rcases List.mem_append.mp htd with htd | htd
          · obtain ⟨st, hstm, hts2⟩ := h1 t htd
            rw [hts2] at hts
            injection hts with hts
            exact absurd hts (hno st hstm)
          · rw [List.mem_singleton] at htd
            subst htd
            exact htl

/-- A fully successful `stations()` loop preserves the rollup invariant
from its starting state to its final state. -/
lemma rollupGo_inv (cw : List (String × CrosswalkEntry)) (lns : List String) :
    ∀ (rest done : List Stop) (stations : List Station)
      (stops2 : List Stop) (stations2 : List Station),
    rollupGo cw lns rest done stations = (stops2, stations2, none) →
    RollInv done stations →
    RollInv stops2 stations2 := by
  intro rest
  induction rest with
  | nil =>
    intro done stations stops2 stations2 h hinv
    simp only [rollupGo, Prod.mk.injEq] at h
    obtain ⟨rfl, rfl, -⟩ := h
    exact hinv
  | cons s rest ih =>
    intro done stations stops2 stations2 h hinv
    simp only [rollupGo] at h
    cases hps : processStop cw lns stations s with
    | error e =>
      rw [hps] at h
      simp at h
    | ok pr =>
      rw [hps] at h
      obtain ⟨s1, stations1⟩ := pr
      exact ih (done ++ [s1]) stations1 _ _ h
        (RollInv_step cw lns stations stations1 done s s1 hinv hps)

/-- Claim C1: for every Line and every SRID in its known set, if the
full-resolution geometry for that SRID is multi-part and the
vertex-reduction primitive collapses it to a single-part line, then after
`set_simple_linestrings` the stored simplified field is re-wrapped into a
multi-part shell, so its declared geometry type stays `MultiLineString`
(under the standing fact that CRS reprojection preserves geometry type). -/
theorem C1_type_preservation (lib : GeoLib) (l : Line) (tol srid : Nat) (src : Geom)
    (htrans : ∀ g t, (lib.transform g t).geomType = g.geomType)
    (hsrid : srid ∈ Line.get_srid_list)
    (hsrc : l.getLinestring srid = some src)
    (hmulti : src.geomType = "MultiLineString")
    (hcollapse :
      (lib.simplify (if srid ≠ 900913 then lib.transform src 900913 else src) tol).geomType
        = "LineString") :
    ∃ r, (Line.set_simple_linestrings lib tol l).getSimpleLinestring srid = some r ∧
      r.geomType = "MultiLineString" := by
  have hfield := getSimple_set_simple lib tol l srid hsrid
  rw [hsrc] at hfield
  set simple := lib.simplify (if srid ≠ 900913 then lib.transform src 900913 else src) tol
    with hsimple
  have hres : simpleResult lib tol srid (some src)
      = some (wrapMulti (lib.transform simple srid)) := by
    simp only [simpleResult, ← hsimple, hcollapse, if_pos]
  obtain ⟨pts, hp⟩ := geomType_lineString ((htrans simple srid).trans hcollapse)
  refine ⟨wrapMulti (lib.transform simple srid), hfield.trans hres, ?_⟩
  rw [hp]
  rfl

/-- Claim C1 witness: concrete instantiation at `demoLine`, whose
two-part 2229 geometry collapses to one part under `demoLib.simplify`. -/
theorem C1_witness :
    ∃ r, (Line.set_simple_linestrings demoLib 500 demoLine).getSimpleLinestring 2229
        = some r ∧ r.geomType = "MultiLineString" :=
  C1_type_preservation demoLib demoLine 500 2229 demoMulti (fun _ _ => rfl)
    (by decide) rfl (by decide) (by decide)

/-- Claim C2: after a fully successful `fix_line_dupes` run on a
well-formed table, every name held by more than one row is represented by
exactly one row whose canonical geometry is the aggregate union of the
original rows of that name; every original member of such a group is gone
from the table while the new row is present; and every name held by
exactly one row is left untouched. -/
theorem C2_consolidation (lib : GeoLib) (db db1 : LineDB)
    (hwf : WFdb db)
    (hrun : fix_line_dupes_run lib db = (db1, none)) :
    (∀ n, 2 ≤ (nameRows db n).length →
      ∃ i u ln,
        lib.unionagg ((nameRows db n).map (fun r => r.2.linestring_2229))
          = Except.ok u ∧
        nameRows db1 n = [(i, ln)] ∧ ln.name = n ∧ ln.linestring_2229 = some u ∧
        (i, ln) ∈ db1.rows ∧
        ∀ r ∈ nameRows db n, r ∉ db1.rows) ∧
    (∀ n, (nameRows db n).length = 1 → nameRows db1 n = nameRows db n) := by
  obtain ⟨hwf1, hle1, hmain, hframe⟩ :=
    consolidateGo_spec lib db (dupeNames db) db db1 hrun hwf (le_refl _)
      (fun _ _ => rfl) (nodup_dupeNames db)
  constructor
  · intro n hn
    obtain ⟨i, u, hile, hu, hrow⟩ := hmain n ((mem_dupeNames db n).mpr hn)
    refine ⟨i, u, blankLine n (some u), hu, hrow, rfl, rfl, ?_, ?_⟩
    · exact List.mem_of_mem_filter (hrow ▸ List.mem_singleton_self _)
    · intro r hr hcon
      have hrname := List.mem_filter.mp hr
      have hrlt : r.1 < db.nextId := hwf r (List.mem_of_mem_filter hr)
      have hrn : r ∈ nameRows db1 n := List.mem_filter.mpr ⟨hcon, hrname.2⟩
      rw [hrow, List.mem_singleton] at hrn
      subst hrn
      simp only at hrlt
      omega
  · intro n hn
    have : n ∉ dupeNames db := by
      rw [mem_dupeNames, hn]
      omega
    exact hframe n this

/-- Claim C2 witness: concrete run on `demoDB`, whose two "Red" rows are
consolidated into one unioned row. -/
theorem C2_witness :
    ∃ i u ln,
      demoLib.unionagg ((nameRows demoDB "Red").map (fun r => r.2.linestring_2229))
        = Except.ok u ∧
      nameRows (fix_line_dupes_run demoLib demoDB).1 "Red" = [(i, ln)] ∧
      ln.name = "Red" ∧ ln.linestring_2229 = some u ∧
      (i, ln) ∈ (fix_line_dupes_run demoLib demoDB).1.rows ∧
      ∀ r ∈ nameRows demoDB "Red", r ∉ (fix_line_dupes_run demoLib demoDB).1.rows :=
  (C2_consolidation demoLib demoDB (fix_line_dupes_run demoLib demoDB).1
    (by unfold WFdb; decide) (by decide)).1 "Red" (by decide)

/-- Claim C3: for an entity with a non-empty canonical geometry and a
legitimate canonical SRID, sync succeeds, every non-canonical geometry
field afterwards equals the canonical geometry transformed into that
field's SRID, and the canonical field is unchanged — for both
`Line.set_linestrings` and `Stop.set_point`. -/
theorem C3_sync_fields (lib : GeoLib) (l : Line) (s : Stop) (cL cS : Nat)
    (gL gS : Geom)
    (hcL : cL ∈ Line.get_srid_list) (hgL : l.getLinestring cL = some gL)
    (hcS : cS ∈ Stop.get_srid_list) (hgS : s.getPoint cS = some gS) :
    (∃ l2, Line.set_linestrings lib l cL = Except.ok l2 ∧
      l2.getLinestring cL = some gL ∧
      ∀ srid ∈ Line.get_srid_list, srid ≠ cL →
        l2.getLinestring srid = some (lib.transform gL srid)) ∧
    (∃ s2, Stop.set_point lib s cS = Except.ok s2 ∧
      s2.getPoint cS = some gS ∧
      ∀ srid ∈ Stop.get_srid_list, srid ≠ cS →
        s2.getPoint srid = some (lib.transform gS srid)) :=
  ⟨set_linestrings_ok lib l cL gL hcL hgL, set_point_ok lib s cS gS hcS hgS⟩

/-- Claim C3 witness: concrete sync of `demoLine` from SRID 2229 and of
`demoStop` from SRID 4269. -/
theorem C3_witness :
    (∃ l2, Line.set_linestrings demoLib demoLine 2229 = Except.ok l2 ∧
      l2.getLinestring 2229 = some demoMulti ∧
      ∀ srid ∈ Line.get_srid_list, srid ≠ 2229 →
        l2.getLinestring srid = some (demoLib.transform demoMulti srid)) ∧
    (∃ s2, Stop.set_point demoLib demoStop 4269 = Except.ok s2 ∧
      s2.getPoint 4269 = some demoPoint ∧
      ∀ srid ∈ Stop.get_srid_list, srid ≠ 4269 →
        s2.getPoint srid = some (demoLib.transform demoPoint srid)) :=
  C3_sync_fields demoLib demoLine demoStop 2229 4269 demoMulti demoPoint
    (by decide) rfl (by decide) rfl

/-- Claim C4: after a fully successful `stations()` rollup starting from
an empty station table, every stop has a non-null station reference, and
every station's line set equals the union of the line sets of the stops
assigned to that station. -/
theorem C4_rollup (cw : List (String × CrosswalkEntry)) (lns : List String)
    (stops stops2 : List Stop) (stations2 : List Station)
    (h : stations_run cw lns stops [] = (stops2, stations2, none)) :
    (∀ t ∈ stops2, t.station.isSome = true) ∧
    (∀ st ∈ stations2, ∀ l,
      l ∈ st.lines ↔ ∃ t ∈ stops2, t.station = some st.name ∧ l ∈ t.lines) := by
  have hinv0 : RollInv [] [] := ⟨by simp, by simp, by simp⟩
  obtain ⟨h1, h2, h3⟩ := rollupGo_inv cw lns stops [] [] stops2 stations2 h hinv0
  refine ⟨?_, fun st hst l => h3 st hst l⟩
  intro t ht
  obtain ⟨st, -, hts⟩ := h1 t ht
  rw [hts]
  rfl

/-- Claim C4 witness: concrete rollup of `demoStop` against `demoCw`,
which files it under the "Union Station" station with line set Gold. -/
theorem C4_witness :
    (∀ t ∈ (stations_run demoCw ["Gold"] [demoStop] []).1, t.station.isSome = true) ∧
    (∀ st ∈ (stations_run demoCw ["Gold"] [demoStop] []).2.1, ∀ l,
      l ∈ st.lines ↔ ∃ t ∈ (stations_run demoCw ["Gold"] [demoStop] []).1,
        t.station = some st.name ∧ l ∈ t.lines) :=
  C4_rollup demoCw ["Gold"] [demoStop] _ _ (by decide)

/-- Claim C5: a stop whose `stop_id` has no crosswalk entry makes its loop
iteration fail with the missing-crosswalk-entry error before any mutation,
so no placeholder station is created for it and its name, slug, line set
and station reference are left as they were; when such a stop is reached,
the rollup run aborts with that error. -/
theorem C5_missing_crosswalk (cw : List (String × CrosswalkEntry))
    (lns : List String) (stationTable : List Station) (s : Stop) (rest : List Stop)
    (h : lookupCw cw (toString s.stop_id) = none) :
    processStop cw lns stationTable s
      = Except.error "KeyError: MissingCrosswalkEntry" ∧
    stations_run cw lns (s :: rest) stationTable
      = (s :: rest, stationTable, some "KeyError: MissingCrosswalkEntry") := by
  have hp : processStop cw lns stationTable s
      = Except.error "KeyError: MissingCrosswalkEntry" := by
    unfold processStop
    rw [h]
  refine ⟨hp, ?_⟩
  unfold stations_run
  simp only [rollupGo]
  rw [hp]
  simp

/-- Claim C5 witness: concrete rollup where stop 200 has no entry in
`demoCw`: the run aborts and stop and station tables are unchanged. -/
theorem C5_witness :
    processStop demoCw ["Gold"] [] demoStopNoEntry
      = Except.error "KeyError: MissingCrosswalkEntry" ∧
    stations_run demoCw ["Gold"] [demoStopNoEntry] []
      = ([demoStopNoEntry], [], some "KeyError: MissingCrosswalkEntry") :=
  C5_missing_crosswalk demoCw ["Gold"] [] demoStopNoEntry [] (by decide)

/-- Claim C6 counterexample: with two duplicate groups "A" and "B" and an
aggregate union that fails, `fix_line_dupes` does not skip the failing
group and continue — the whole run aborts with the error and group "B" is
left with its two original rows, never consolidated to one. -/
theorem C6_counterexample :
    fix_line_dupes_run failLib demoDB2 = (demoDB2, some "union failed") ∧
    ¬((nameRows (fix_line_dupes_run failLib demoDB2).1 "B").length = 1) := by
  decide

/-- Claim C6 as amended: if the aggregate union fails on the first
duplicate group, the exception propagates and aborts the consolidation run
at that group: the failing group's originals are not deleted, but the
remaining groups are not consolidated either — the table is returned
exactly as it was. -/
theorem C6_amended_abort (lib : GeoLib) (db : LineDB) (n : String)
    (ns : List String) (e : String)
    (hd : dupeNames db = n :: ns)
    (hf : consolidateName lib db n = Except.error e) :
    fix_line_dupes_run lib db = (db, some e) := by
  unfold fix_line_dupes_run
  rw [hd]
  simp only [consolidateGo]
  rw [hf]

/-- Claim C6 amended witness: concrete failing run on `demoDB2`. -/
theorem C6_amended_witness :
    fix_line_dupes_run failLib demoDB2 = (demoDB2, some "union failed") :=
  C6_amended_abort failLib demoDB2 "A" ["B"] "union failed" (by decide) (by decide)

/-- Claim C7: for every SRID in the known set whose full-resolution field
is empty, `set_simple_linestrings` stores an empty simplified field and
still processes every other SRID (any non-empty field yields a non-empty
simplified field); the operation is total and never raises. -/
theorem C7_empty_simplify (lib : GeoLib) (l : Line) (tol srid : Nat)
    (hsrid : srid ∈ Line.get_srid_list)
    (hempty : l.getLinestring srid = none) :
    (Line.set_simple_linestrings lib tol l).getSimpleLinestring srid = none ∧
    ∀ srid2 ∈ Line.get_srid_list, ∀ g, l.getLinestring srid2 = some g →
      ∃ r, (Line.set_simple_linestrings lib tol l).getSimpleLinestring srid2
        = some r := by
  constructor
  · rw [getSimple_set_simple lib tol l srid hsrid, hempty]
    rfl
  · intro srid2 h2 g hg2
    rw [getSimple_set_simple lib tol l srid2 h2, hg2]
    exact ⟨_, rfl⟩

/-- Claim C7 witness: `demoLineHole` has an empty 2229 field and a
populated 4269 field. -/
theorem C7_witness :
    (Line.set_simple_linestrings demoLib 500 demoLineHole).getSimpleLinestring 2229
      = none ∧
    ∀ srid2 ∈ Line.get_srid_list, ∀ g, demoLineHole.getLinestring srid2 = some g →
      ∃ r, (Line.set_simple_linestrings demoLib 500 demoLineHole).getSimpleLinestring srid2
        = some r :=
  C7_empty_simplify demoLib demoLineHole 500 2229 (by decide) rfl

/-- Claim C8: syncing with a canonical SRID outside the entity's known
SRID set fails with the configuration error (`ValueError`), for both
`Line.set_linestrings` and `Stop.set_point`; the guard runs before any
field is written, so the error result carries no mutated entity. -/
theorem C8_bad_srid (lib : GeoLib) (l : Line) (s : Stop) (cL cS : Nat)
    (hL : cL ∉ Line.get_srid_list) (hS : cS ∉ Stop.get_srid_list) :
    Line.set_linestrings lib l cL
      = Except.error "ValueError: canonical_srid must exist on the model." ∧
    Stop.set_point lib s cS
      = Except.error "ValueError: canonical_srid must exist on the model." := by
  constructor
  · unfold Line.set_linestrings
    rw [if_neg hL]
  · unfold Stop.set_point
    rw [if_neg hS]

/-- Claim C8 witness: SRID 999 is not a known SRID of either model. -/
theorem C8_witness :
    Line.set_linestrings demoLib demoLine 999
      = Except.error "ValueError: canonical_srid must exist on the model." ∧
    Stop.set_point demoLib demoStop 999
      = Except.error "ValueError: canonical_srid must exist on the model." :=
  C8_bad_srid demoLib demoLine demoStop 999 999 (by decide) (by decide)

/-- Claim C9: sync is idempotent: a successful sync leaves an entity on
which running the same sync again succeeds and returns the entity
unchanged, so the derived fields after the second run are identical to
those after the first — for both `Line.set_linestrings` and
`Stop.set_point`. -/
theorem C9_sync_idempotent (lib : GeoLib) (l l2 : Line) (s s2 : Stop) (cL cS : Nat)
    (hL : Line.set_linestrings lib l cL = Except.ok l2)
    (hS : Stop.set_point lib s cS = Except.ok s2) :
    Line.set_linestrings lib l2 cL = Except.ok l2 ∧
    Stop.set_point lib s2 cS = Except.ok s2 := by
  constructor
  · by_cases hc : cL ∈ Line.get_srid_list
    · obtain ⟨nm, sl, f1, f2, f3, f4, t1, t2, t3, t4⟩ := l
      fin_cases hc
      · cases f1 with
        | none => exact Except.noConfusion hL
        | some g =>
          injection hL with h2
          subst h2
          rfl
      · cases f2 with
        | none => exact Except.noConfusion hL
        | some g =>
          injection hL with h2
          subst h2
          rfl
      · cases f3 with
        | none => exact Except.noConfusion hL
        | some g =>
          injection hL with h2
          subst h2
          rfl
      · cases f4 with
        | none => exact Except.noConfusion hL
        | some g =>
          injection hL with h2
          subst h2
          rfl
    · unfold Line.set_linestrings at hL
      rw [if_neg hc] at hL
      exact Except.noConfusion hL
  · by_cases hc : cS ∈ Stop.get_srid_list
    · obtain ⟨nm, sl, sid, stn, ln, p1, p2, p3⟩ := s
      fin_cases hc
      · cases p1 with
        | none => exact Except.noConfusion hS
        | some g =>
          injection hS with h2
          subst h2
          rfl
      · cases p2 with
        | none => exact Except.noConfusion hS
        | some g =>
          injection hS with h2
          subst h2
          rfl
      · cases p3 with
        | none => exact Except.noConfusion hS
        | some g =>
          injection hS with h2
          subst h2
          rfl
    · unfold Stop.set_point at hS
      rw [if_neg hc] at hS
      exact Except.noConfusion hS

/-- Claim C9 witness: re-syncing the already synced `demoLineSynced` and
the synced image of `demoStop` changes nothing. -/
theorem C9_witness :
    Line.set_linestrings demoLib demoLineSynced 2229 = Except.ok demoLineSynced ∧
    Stop.set_point demoLib
        { demoStop with point_4326 := some demoPoint, point_900913 := some demoPoint }
        4269
      = Except.ok
        { demoStop with point_4326 := some demoPoint, point_900913 := some demoPoint } :=
  C9_sync_idempotent demoLib demoLine demoLineSynced demoStop
    { demoStop with point_4326 := some demoPoint, point_900913 := some demoPoint }
    2229 4269 (by decide) (by decide)

/-- Claim C10: sync has an unstated non-emptiness precondition: with an
empty canonical geometry field, `Line.set_linestrings` and
`Stop.set_point` fail at the transform step (`AttributeError` on `None`)
instead of skipping or writing empty derived fields — unlike
`set_simple_linestrings`, which guards empty fields. -/
theorem C10_empty_canonical (lib : GeoLib) (l : Line) (s : Stop) (cL cS : Nat)
    (hcL : cL ∈ Line.get_srid_list) (hgL : l.getLinestring cL = none)
    (hcS : cS ∈ Stop.get_srid_list) (hgS : s.getPoint cS = none) :
    Line.set_linestrings lib l cL
      = Except.error "AttributeError: NoneType has no attribute transform" ∧
    Stop.set_point lib s cS
      = Except.error "AttributeError: NoneType has no attribute transform" := by
  constructor
  · obtain ⟨nm, sl, f1, f2, f3, f4, t1, t2, t3, t4⟩ := l
    fin_cases hcL
    · have h2 : f1 = none := hgL
      cases h2
      rfl
    · have h2 : f2 = none := hgL
      cases h2
      rfl
    · have h2 : f3 = none := hgL
      cases h2
      rfl
    · have h2 : f4 = none := hgL
      cases h2
      rfl
  · obtain ⟨nm, sl, sid, stn, ln, p1, p2, p3⟩ := s
    fin_cases hcS
    · have h2 : p1 = none := hgS
      cases h2
      rfl
    · have h2 : p2 = none := hgS
      cases h2
      rfl
    · have h2 : p3 = none := hgS
      cases h2
      rfl

/-- Claim C10 witness: a line and a stop with empty canonical fields. -/
theorem C10_witness :
    Line.set_linestrings demoLib (blankLine "Red" none) 2229
      = Except.error "AttributeError: NoneType has no attribute transform" ∧
    Stop.set_point demoLib demoStopEmpty 4269
      = Except.error "AttributeError: NoneType has no attribute transform" :=
  C10_empty_canonical demoLib (blankLine "Red" none) demoStopEmpty 2229 4269
    (by decide) rfl (by decide) rfl
